import Mathlib

/-!
Shallow embedding of a minimal wgpu/winit graphics demo
(`src/window.rs`, `src/main.rs`): a window state machine whose
event loop recolors the background on left click, reconfigures the
surface on resize, and renders a fixed pentagon each redraw tick.

GPU-side effects (surface reconfiguration, command submission,
presentation, logging) are modelled as an explicit effect trace; the
outcome of acquiring the next surface texture and the values drawn
from the thread-local RNG are supplied by an environment input, since
both come from outside the program.
-/

namespace WgpuFun

/-- RGBA color (`wgpu::Color`, four f64 channels, modelled as rationals). -/
structure Color where
  r : ℚ
  g : ℚ
  b : ℚ
  a : ℚ
deriving DecidableEq

/-- A vertex: position and color, each three f32 values (modelled as
rationals). Mirrors `struct Vertex` in `src/window.rs`. -/
structure Vertex where
  position : ℚ × ℚ × ℚ
  color : ℚ × ℚ × ℚ
deriving DecidableEq

/-- The compiled-in vertex data `VERTICES` of `src/window.rs`. -/
def VERTICES : List Vertex :=
  [ { position := (-0.0868241, 0.49240386, 0), color := (0.5, 0, 0.5) }
  , { position := (-0.49513406, 0.06958647, 0), color := (0.5, 0, 0.5) }
  , { position := (-0.21918549, -0.44939706, 0), color := (0.5, 0, 0.5) }
  , { position := (0.35966998, -0.3473291, 0), color := (0.5, 0, 0.5) }
  , { position := (0.44147372, 0.2347359, 0), color := (0.5, 0, 0.5) } ]

/-- The compiled-in index data `INDICES` of `src/window.rs` (u16 values,
all far below 2^16, so plain naturals). -/
def INDICES : List Nat := [0, 1, 4, 1, 2, 4, 2, 3, 4]

/-- Subset of `wgpu::VertexFormat` used by the program. -/
inductive VertexFormat
  | Float32x2
  | Float32x3
deriving DecidableEq

/-- One entry of a vertex buffer layout (`wgpu::VertexAttribute`). -/
structure VertexAttribute where
  offset : Nat
  shader_location : Nat
  format : VertexFormat
deriving DecidableEq

/-- `wgpu::VertexBufferLayout` (byte stride plus attribute list). -/
structure VertexBufferLayout where
  array_stride : Nat
  attributes : List VertexAttribute
deriving DecidableEq

/-- `Vertex::desc()`: stride `size_of::<Vertex>()` = 24 bytes; position at
offset 0, color at offset `size_of::<[f32; 3]>()` = 12, both Float32x3. -/
def Vertex.desc : VertexBufferLayout :=
  { array_stride := 24
  , attributes :=
      [ { offset := 0, shader_location := 0, format := .Float32x3 }
      , { offset := 12, shader_location := 1, format := .Float32x3 } ] }

/-- `wgpu::PrimitiveTopology` (the variants relevant here). -/
inductive PrimitiveTopology
  | PointList
  | LineList
  | TriangleList
  | TriangleStrip
deriving DecidableEq

/-- `wgpu::FrontFace`. -/
inductive FrontFace
  | Ccw
  | Cw
deriving DecidableEq

/-- `wgpu::Face` (for culling). -/
inductive Face
  | Front
  | Back
deriving DecidableEq

/-- `wgpu::PrimitiveState` fields the pipeline sets. -/
structure PrimitiveState where
  topology : PrimitiveTopology
  front_face : FrontFace
  cull_mode : Option Face
deriving DecidableEq

/-- `wgpu::MultisampleState` (only the sample count matters here). -/
structure MultisampleState where
  count : Nat
deriving DecidableEq

/-- The observable descriptor of the render pipeline built in
`Window::configure`. -/
structure RenderPipeline where
  buffers : List VertexBufferLayout
  primitive : PrimitiveState
  depth_stencil : Option Unit
  multisample : MultisampleState
deriving DecidableEq

/-- The pipeline descriptor from `Window::configure`: one vertex buffer
laid out by `Vertex::desc()`, triangle-list topology, counter-clockwise
front faces with back-face culling, no depth/stencil, sample count 1. -/
def renderPipelineDesc : RenderPipeline :=
  { buffers := [Vertex.desc]
  , primitive :=
      { topology := .TriangleList, front_face := .Ccw, cull_mode := some .Back }
  , depth_stencil := none
  , multisample := { count := 1 } }

/-- `wgpu::PresentMode` (variants relevant here). -/
inductive PresentMode
  | Fifo
  | Immediate
  | Mailbox
deriving DecidableEq

/-- `wgpu::SurfaceConfiguration`: dimensions, present mode, and the
texture format (abstracted as the index into the supported-format list;
the program picks element 0). -/
structure SurfaceConfiguration where
  width : Nat
  height : Nat
  present_mode : PresentMode
  format : Nat
deriving DecidableEq

/-- `winit::event_loop::ControlFlow` as the program uses it: the default
polling (Running) flow, or Exit (Exiting). -/
inductive ControlFlow
  | Poll
  | Exit
deriving DecidableEq

/-- `wgpu::SurfaceError`. -/
inductive SurfaceError
  | Timeout
  | Outdated
  | Lost
  | OutOfMemory
deriving DecidableEq

/-- `winit::event::ElementState`. -/
inductive ElementState
  | Pressed
  | Released
deriving DecidableEq

/-- `winit::event::MouseButton`. -/
inductive MouseButton
  | Left
  | Right
  | Middle
  | Other (n : Nat)
deriving DecidableEq

/-- `winit::event::VirtualKeyCode`, collapsed to the one key the program
inspects plus an opaque remainder. -/
inductive VirtualKeyCode
  | Escape
  | Other (n : Nat)
deriving DecidableEq

/-- The window events the match in `Window::spawn` distinguishes. -/
inductive WindowEvent
  | CloseRequested
  | KeyboardInput (scancode : Nat) (state : ElementState)
      (virtual_keycode : Option VirtualKeyCode)
  | Resized (w : Nat) (h : Nat)
  | ScaleFactorChanged (w : Nat) (h : Nat)
  | MouseInput (state : ElementState) (button : MouseButton)
  | Moved (x : Int) (y : Int)
  | Other
deriving DecidableEq

/-- The top-level events the match in `Window::spawn` distinguishes. -/
inductive Event
  | WindowEvent (window_id : Nat) (event : WgpuFun.WindowEvent)
  | RedrawRequested (window_id : Nat)
  | MainEventsCleared
  | Other
deriving DecidableEq

/-- `wgpu::LoadOp` for a color attachment. -/
inductive LoadOp
  | Clear (c : Color)
  | Load
deriving DecidableEq

/-- `wgpu::Operations`: how the attachment is loaded at pass start and
whether its result is stored on finish. -/
structure Operations where
  load : LoadOp
  store : Bool
deriving DecidableEq

/-- `wgpu::RenderPassColorAttachment` (the view handle is abstracted
away; the resolve target and the load/store operations remain). -/
structure RenderPassColorAttachment where
  resolve_target : Option Unit
  ops : Operations
deriving DecidableEq

/-- One recorded render pass: the color attachment list (the source
records exactly `&[Some(...)]`), the optional depth/stencil attachment,
the pipeline set on the pass, and the issued indexed draw ranges. -/
structure RenderPassRecord where
  color_attachments : List (Option RenderPassColorAttachment)
  depth_stencil_attachment : Option Unit
  pipeline : RenderPipeline
  draws : List (Nat × Nat)
deriving DecidableEq

/-- A finished command buffer: the render passes it recorded. -/
structure CommandBuffer where
  passes : List RenderPassRecord
deriving DecidableEq

/-- Externally observable actions of one event-handling step. -/
inductive Effect
  | configure_surface (w : Nat) (h : Nat)
  | submit (cb : CommandBuffer)
  | present
  | log (e : SurfaceError)
  | print_moved (x : Int) (y : Int)
  | request_redraw
deriving DecidableEq

/-- Environment input for one step: the next three values the
thread-local RNG would yield (`rand::thread_rng().gen_range(0.0..1.0)`),
and the outcome of `surface.get_current_texture()` (`none` = success). -/
structure EnvInput where
  rng1 : ℚ
  rng2 : ℚ
  rng3 : ℚ
  acquire : Option SurfaceError
deriving DecidableEq

/-- The mutable window state of `struct Window` (GPU handles are
abstracted away; the pipeline keeps its observable descriptor). -/
structure Window where
  window_id : Nat
  background_color : Color
  config : SurfaceConfiguration
  size : Nat × Nat
  render_pipeline : RenderPipeline
  index_ct : Nat
deriving DecidableEq

/-- `Window::configure`, observable part: the state it returns. The
window id, inner size, and chosen surface format come from the
environment; background color starts at (0.1, 0.2, 0.3, 1.0), the
surface configuration takes the inner size and Fifo present mode, and
`index_ct` is `INDICES.len()`. -/
def configure (window_id : Nat) (inner : Nat × Nat) (format : Nat) : Window :=
  { window_id := window_id
  , background_color := { r := 0.1, g := 0.2, b := 0.3, a := 1.0 }
  , config :=
      { width := inner.1, height := inner.2
      , present_mode := .Fifo, format := format }
  , size := inner
  , render_pipeline := renderPipelineDesc
  , index_ct := INDICES.length }

/-- `Window::resize`: store the new size, copy it into the surface
configuration, and reconfigure the surface. -/
def Window.resize (st : Window) (new_size : Nat × Nat) : Window × List Effect :=
  ( { st with
        size := new_size
      , config := { st.config with width := new_size.1, height := new_size.2 } }
  , [.configure_surface new_size.1 new_size.2] )

/-- `Window::render`: acquire the surface texture (outcome supplied by
the environment); on success, record one render pass whose single color
attachment clears to the current background color and stores on finish,
with no depth/stencil attachment, set the pipeline and the vertex/index
buffers, draw indices `0..index_ct`, then submit the command buffer and
present the frame. -/
def Window.render (st : Window) (acquire : Option SurfaceError) :
    Except SurfaceError (List Effect) :=
  match acquire with
  | some e => .error e
  | none =>
      .ok
        [ .submit
            { passes :=
                [ { color_attachments :=
                      [ some
                          { resolve_target := none
                          , ops :=
                              { load := .Clear st.background_color
                              , store := true } } ]
                  , depth_stencil_attachment := none
                  , pipeline := st.render_pipeline
                  , draws := [(0, st.index_ct)] } ] }
        , .present ]

/-- One iteration of the closure passed to `EventLoop::run` in
`Window::spawn`: dispatch on the event, mutate the state, set the
control flow, and emit the observable effects. -/
def Window.step (st : Window) (cf : ControlFlow) (ev : Event) (env : EnvInput) :
    Window × ControlFlow × List Effect :=
  match ev with
  | .WindowEvent wid we =>
      if wid = st.window_id then
        match we with
        | .CloseRequested => (st, .Exit, [])
        | .KeyboardInput _ .Pressed (some .Escape) => (st, .Exit, [])
        | .Resized w h =>
            let r := st.resize (w, h)
            (r.1, cf, r.2)
        | .ScaleFactorChanged w h =>
            let r := st.resize (w, h)
            (r.1, cf, r.2)
        | .MouseInput .Pressed .Left =>
            ( { st with background_color :=
                  { r := env.rng1, g := env.rng2, b := env.rng3, a := 1.0 } }
            , cf, [] )
        | .Moved x y => (st, cf, [.print_moved x y])
        | _ => (st, cf, [])
      else (st, cf, [])
  | .RedrawRequested wid =>
      if wid = st.window_id then
        match st.render env.acquire with
        | .ok effs => (st, cf, effs)
        | .error .Lost =>
            let r := st.resize st.size
            (r.1, cf, r.2)
        | .error .OutOfMemory => (st, .Exit, [])
        | .error e => (st, cf, [.log e])
      else (st, cf, [])
  | .MainEventsCleared => (st, cf, [.request_redraw])
  | .Other => (st, cf, [])

/-- The driving loop: winit stops dispatching to the closure once
`ControlFlow::Exit` has been set; otherwise each event goes through one
`Window.step`, threading state and control flow. Returns the effect
trace of the executed steps. -/
def run (st : Window) (cf : ControlFlow) :
    List (Event × EnvInput) → List (List Effect)
  | [] => []
  | (ev, env) :: rest =>
      match cf with
      | .Exit => []
      | .Poll =>
          let r := st.step cf ev env
          r.2.2 :: run r.1 r.2.1 rest

/-- Whether an event is a left-mouse-button press for some window. -/
def isLeftClick : Event → Bool
  | .WindowEvent _ (.MouseInput .Pressed .Left) => true
  | _ => false

/-- The stored size agrees with the surface configuration's dimensions. -/
def sizeMatchesConfig (st : Window) : Prop :=
  st.size.1 = st.config.width ∧ st.size.2 = st.config.height

instance (st : Window) : Decidable (sizeMatchesConfig st) :=
  inferInstanceAs (Decidable (_ ∧ _))

/-- The background color after handling a mouse-input event with the
given button state and button. -/
def bgAfter (st : Window) (cf : ControlFlow) (env : EnvInput)
    (ms : ElementState) (mb : MouseButton) : Color :=
  (st.step cf (.WindowEvent st.window_id (.MouseInput ms mb)) env).1.background_color

/-- A left-button press replaces the background color with the three
RNG samples and alpha 1; the resulting channels lie in the unit cube;
any other mouse input leaves the background color unchanged. -/
def leftClickSpec (st : Window) (cf : ControlFlow) (env : EnvInput) : Prop :=
  bgAfter st cf env .Pressed .Left =
    { r := env.rng1, g := env.rng2, b := env.rng3, a := 1.0 }
  ∧ (0 ≤ (bgAfter st cf env .Pressed .Left).r ∧ (bgAfter st cf env .Pressed .Left).r ≤ 1)
  ∧ (0 ≤ (bgAfter st cf env .Pressed .Left).g ∧ (bgAfter st cf env .Pressed .Left).g ≤ 1)
  ∧ (0 ≤ (bgAfter st cf env .Pressed .Left).b ∧ (bgAfter st cf env .Pressed .Left).b ≤ 1)
  ∧ (bgAfter st cf env .Pressed .Left).a = 1.0
  ∧ ∀ ms mb, ¬(ms = ElementState.Pressed ∧ mb = MouseButton.Left) →
      bgAfter st cf env ms mb = st.background_color

/-! Helper lemmas: a single case analysis of `Window.step`, and the
preservation facts that follow from it. -/

/-- Every step either leaves the state unchanged, applies `resize` to
some size, or (exactly on a left-button press) replaces the background
color with the three RNG samples and alpha 1. -/
theorem step_fst_cases (st : Window) (cf : ControlFlow) (ev : Event) (env : EnvInput) :
    (st.step cf ev env).1 = st
    ∨ (∃ p, (st.step cf ev env).1 = (st.resize p).1)
    ∨ (isLeftClick ev = true ∧
        (st.step cf ev env).1 =
          { st with background_color :=
              { r := env.rng1, g := env.rng2, b := env.rng3, a := 1.0 } }) := by
  rcases ev with ⟨wid, we⟩ | wid | _ | _
  · by_cases hw : wid = st.window_id
    · subst hw
      rcases we with _ | ⟨sc, ks, kc⟩ | ⟨w, h⟩ | ⟨w, h⟩ | ⟨ms, mb⟩ | ⟨x, y⟩ | _
      · exact Or.inl (by simp [Window.step])
      · rcases ks with _ | _ <;> rcases kc with _ | (_ | n) <;>
          exact Or.inl (by simp [Window.step])
      · exact Or.inr (Or.inl ⟨(w, h), by simp [Window.step]⟩)
      · exact Or.inr (Or.inl ⟨(w, h), by simp [Window.step]⟩)
      · rcases ms with _ | _ <;> rcases mb with _ | _ | _ | n
        · exact Or.inr (Or.inr ⟨rfl, by simp [Window.step]⟩)
        all_goals exact Or.inl (by simp [Window.step])
      · exact Or.inl (by simp [Window.step])
      · exact Or.inl (by simp [Window.step])
    · exact Or.inl (by simp [Window.step, hw])
  · by_cases hw : wid = st.window_id
    · subst hw
      rcases env with ⟨q1, q2, q3, acq⟩
      rcases acq with _ | (_ | _ | _ | _)
      · exact Or.inl (by simp [Window.step, Window.render])
      · exact Or.inl (by simp [Window.step, Window.render])
      · exact Or.inl (by simp [Window.step, Window.render])
      · exact Or.inr (Or.inl ⟨st.size, by simp [Window.step, Window.render]⟩)
      · exact Or.inl (by simp [Window.step, Window.render])
    · exact Or.inl (by simp [Window.step, hw])
  · exact Or.inl (by simp [Window.step])
  · exact Or.inl (by simp [Window.step])

/-- No step changes the stored pipeline descriptor. -/
theorem step_render_pipeline (st : Window) (cf : ControlFlow) (ev : Event) (env : EnvInput) :
    (st.step cf ev env).1.render_pipeline = st.render_pipeline := by
  rcases step_fst_cases st cf ev env with h | ⟨p, h⟩ | ⟨-, h⟩ <;>
    simp [h, Window.resize]

/-- No step changes the stored index count. -/
theorem step_index_ct (st : Window) (cf : ControlFlow) (ev : Event) (env : EnvInput) :
    (st.step cf ev env).1.index_ct = st.index_ct := by
  rcases step_fst_cases st cf ev env with h | ⟨p, h⟩ | ⟨-, h⟩ <;>
    simp [h, Window.resize]

/-- Any step that is not a left-button press keeps the background color. -/
theorem step_background (st : Window) (cf : ControlFlow) (ev : Event) (env : EnvInput)
    (h : isLeftClick ev = false) :
    (st.step cf ev env).1.background_color = st.background_color := by
  rcases step_fst_cases st cf ev env with h1 | ⟨p, h1⟩ | ⟨h2, h1⟩
  · rw [h1]
  · rw [h1]; rfl
  · simp [h] at h2

/-- Every step preserves the size/configuration agreement. -/
theorem step_sizeMatchesConfig (st : Window) (cf : ControlFlow) (ev : Event) (env : EnvInput)
    (h : sizeMatchesConfig st) :
    sizeMatchesConfig (st.step cf ev env).1 := by
  rcases step_fst_cases st cf ev env with h1 | ⟨p, h1⟩ | ⟨-, h1⟩
  · rw [h1]; exact h
  · rw [h1]; exact ⟨rfl, rfl⟩
  · rw [h1]; exact ⟨h.1, h.2⟩

/-- Claim C1: on a redraw tick whose surface acquisition succeeds, the
step records exactly one render pass whose single color attachment
clears to the current background color and stores on finish, with no
depth/stencil attachment, draws indices `0..index_ct` through the stored
pipeline, then submits the command buffer and presents — and the stored
pipeline is the one built at configuration (never changed by any step):
triangle-list topology, back-face culling, sample count 1, no
depth/stencil, single vertex buffer with position at byte offset 0 and
color at byte offset 12, both Float32x3. -/
theorem redraw_success_records_one_clear_pass_and_presents
    (st : Window) (cf : ControlFlow) (q1 q2 q3 : ℚ)
    (wid : Nat) (inner : Nat × Nat) (fmt : Nat)
    (cf2 : ControlFlow) (ev : Event) (env : EnvInput) :
    st.step cf (.RedrawRequested st.window_id) ⟨q1, q2, q3, none⟩ =
      (st, cf,
        [ .submit
            { passes :=
                [ { color_attachments :=
                      [ some
                          { resolve_target := none
                          , ops :=
                              { load := .Clear st.background_color
                              , store := true } } ]
                  , depth_stencil_attachment := none
                  , pipeline := st.render_pipeline
                  , draws := [(0, st.index_ct)] } ] }
        , .present ])
    ∧ (configure wid inner fmt).render_pipeline = renderPipelineDesc
    ∧ (st.step cf2 ev env).1.render_pipeline = st.render_pipeline
    ∧ renderPipelineDesc.primitive.topology = .TriangleList
    ∧ renderPipelineDesc.primitive.cull_mode = some .Back
    ∧ renderPipelineDesc.multisample.count = 1
    ∧ renderPipelineDesc.depth_stencil = none
    ∧ renderPipelineDesc.buffers = [Vertex.desc]
    ∧ Vertex.desc.attributes =
        [ { offset := 0, shader_location := 0, format := .Float32x3 }
        , { offset := 12, shader_location := 1, format := .Float32x3 } ] :=
  ⟨by simp [Window.step, Window.render], rfl,
    step_render_pipeline st cf2 ev env, rfl, rfl, rfl, rfl, rfl, rfl⟩

/-- Claim C2: a close request or a pressed Escape key for this window
transitions the control flow to Exit within that one step (with no
rendering effects), and once Exit has been set the loop executes no
further step, so nothing is rendered afterwards. -/
theorem close_or_escape_exits_and_stops
    (st st2 : Window) (cf : ControlFlow) (env : EnvInput) (sc : Nat)
    (evs : List (Event × EnvInput)) :
    st.step cf (.WindowEvent st.window_id .CloseRequested) env = (st, .Exit, [])
    ∧ st.step cf
        (.WindowEvent st.window_id
          (.KeyboardInput sc .Pressed (some .Escape))) env = (st, .Exit, [])
    ∧ run st2 .Exit evs = [] := by
  refine ⟨by simp [Window.step], by simp [Window.step], ?_⟩
  cases evs <;> rfl

/-- Claim C3: when a redraw's surface acquisition fails with Lost, the
step reconfigures the surface at the currently stored size, emits no
submit/present (the frame is skipped), keeps the control flow, and
leaves the background color and stored size unchanged; the next
successful redraw clears to the same background color. -/
theorem lost_reconfigures_at_stored_size_and_keeps_color
    (st : Window) (cf : ControlFlow) (q1 q2 q3 p1 p2 p3 : ℚ) :
    st.step cf (.RedrawRequested st.window_id) ⟨q1, q2, q3, some .Lost⟩ =
      ((st.resize st.size).1, cf, [.configure_surface st.size.1 st.size.2])
    ∧ (st.resize st.size).1.background_color = st.background_color
    ∧ (st.resize st.size).1.size = st.size
    ∧ ((st.resize st.size).1.step cf (.RedrawRequested st.window_id)
          ⟨p1, p2, p3, none⟩).2.2 =
        [ .submit
            { passes :=
                [ { color_attachments :=
                      [ some
                          { resolve_target := none
                          , ops :=
                              { load := .Clear st.background_color
                              , store := true } } ]
                  , depth_stencil_attachment := none
                  , pipeline := st.render_pipeline
                  , draws := [(0, st.index_ct)] } ] }
        , .present ] :=
  ⟨by simp [Window.step, Window.render, Window.resize], rfl, rfl,
    by simp [Window.step, Window.render, Window.resize]⟩

/-- Claim C4: when a redraw's surface acquisition fails with
OutOfMemory, the step sets the control flow to Exit (state untouched,
no effects). -/
theorem oom_exits
    (st : Window) (cf : ControlFlow) (q1 q2 q3 : ℚ) :
    st.step cf (.RedrawRequested st.window_id) ⟨q1, q2, q3, some .OutOfMemory⟩ =
      (st, .Exit, []) := by
  simp [Window.step, Window.render]

/-- Claim C5: when a redraw's surface acquisition fails with any error
other than Lost and OutOfMemory (i.e. Timeout or Outdated), the step
only logs the error: the state (background color, size, surface
configuration) and the control flow are unchanged and no frame is
submitted or presented. -/
theorem other_surface_error_logged_state_unchanged
    (st : Window) (cf : ControlFlow) (q1 q2 q3 : ℚ) :
    st.step cf (.RedrawRequested st.window_id) ⟨q1, q2, q3, some .Timeout⟩ =
      (st, cf, [.log .Timeout])
    ∧ st.step cf (.RedrawRequested st.window_id) ⟨q1, q2, q3, some .Outdated⟩ =
      (st, cf, [.log .Outdated]) :=
  ⟨by simp [Window.step, Window.render], by simp [Window.step, Window.render]⟩

/-- Claim C6: after handling a resize or scale-factor-changed event
carrying physical size (w, h), the surface configuration's width is
exactly w and its height exactly h. -/
theorem resize_sets_config_dims
    (st : Window) (cf : ControlFlow) (env : EnvInput) (w h : Nat) :
    (st.step cf (.WindowEvent st.window_id (.Resized w h)) env).1.config.width = w
    ∧ (st.step cf (.WindowEvent st.window_id (.Resized w h)) env).1.config.height = h
    ∧ (st.step cf (.WindowEvent st.window_id (.ScaleFactorChanged w h)) env).1.config.width = w
    ∧ (st.step cf (.WindowEvent st.window_id (.ScaleFactorChanged w h)) env).1.config.height = h := by
  refine ⟨?_, ?_, ?_, ?_⟩ <;> simp [Window.step, Window.resize]

/-- Claim C7: a left-button press replaces the background color with
the three RNG samples (each drawn from [0,1)) and alpha exactly 1, so
the channels lie in [0,1]; any mouse input that is not a left-button
press leaves the background color unchanged. -/
theorem left_click_samples_background
    (st : Window) (cf : ControlFlow) (env : EnvInput)
    (h1 : 0 ≤ env.rng1) (h2 : env.rng1 < 1)
    (h3 : 0 ≤ env.rng2) (h4 : env.rng2 < 1)
    (h5 : 0 ≤ env.rng3) (h6 : env.rng3 < 1) :
    leftClickSpec st cf env := by
  have hbg : bgAfter st cf env .Pressed .Left =
      { r := env.rng1, g := env.rng2, b := env.rng3, a := 1.0 } := by
    simp [bgAfter, Window.step]
  refine ⟨hbg, ?_, ?_, ?_, ?_, ?_⟩
  · rw [hbg]; exact ⟨h1, le_of_lt h2⟩
  · rw [hbg]; exact ⟨h3, le_of_lt h4⟩
  · rw [hbg]; exact ⟨h5, le_of_lt h6⟩
  · rw [hbg]
  · intro ms mb hne
    rcases ms with _ | _ <;> rcases mb with _ | _ | _ | n
    · exact absurd ⟨rfl, rfl⟩ hne
    all_goals simp [bgAfter, Window.step]

/-- Witness for C7 at a concrete state and concrete RNG samples. -/
theorem left_click_samples_background_witness :
    ((0 : ℚ) ≤ 0 ∧ (0 : ℚ) < 1)
    ∧ leftClickSpec (configure 0 (800, 600) 0) .Poll ⟨0, 0, 0, none⟩ :=
  ⟨⟨le_refl 0, zero_lt_one⟩,
    left_click_samples_background (configure 0 (800, 600) 0) .Poll
      ⟨0, 0, 0, none⟩ (le_refl 0) zero_lt_one (le_refl 0) zero_lt_one
      (le_refl 0) zero_lt_one⟩

/-- Claim C8: the compiled-in vertex data has exactly 5 vertices, the
index data exactly 9 indices forming 3 triangles, every index is below
5, every vertex is referenced; the initial index count is 9 and no step
ever changes it. -/
theorem pentagon_data_static
    (st : Window) (cf : ControlFlow) (ev : Event) (env : EnvInput)
    (wid : Nat) (inner : Nat × Nat) (fmt : Nat) :
    VERTICES.length = 5
    ∧ INDICES.length = 9
    ∧ INDICES.length = 3 * 3
    ∧ (∀ i ∈ INDICES, i < 5)
    ∧ (∀ v < 5, v ∈ INDICES)
    ∧ (configure wid inner fmt).index_ct = 9
    ∧ (st.step cf ev env).1.index_ct = st.index_ct :=
  ⟨rfl, rfl, rfl, by decide, by decide, rfl, step_index_ct st cf ev env⟩

/-- Witness for C8 at a concrete state and event. -/
theorem pentagon_data_static_witness :
    VERTICES.length = 5
    ∧ INDICES.length = 9
    ∧ INDICES.length = 3 * 3
    ∧ (∀ i ∈ INDICES, i < 5)
    ∧ (∀ v < 5, v ∈ INDICES)
    ∧ (configure 0 (800, 600) 0).index_ct = 9
    ∧ ((configure 0 (800, 600) 0).step .Poll .MainEventsCleared
        ⟨0, 0, 0, none⟩).1.index_ct = (configure 0 (800, 600) 0).index_ct :=
  pentagon_data_static (configure 0 (800, 600) 0) .Poll .MainEventsCleared
    ⟨0, 0, 0, none⟩ 0 (800, 600) 0

/-- Claim C9: the stored window size equals the surface configuration's
dimensions after construction, and every event-handling step preserves
this invariant. -/
theorem size_tracks_config
    (wid : Nat) (inner : Nat × Nat) (fmt : Nat)
    (st : Window) (cf : ControlFlow) (ev : Event) (env : EnvInput)
    (h : sizeMatchesConfig st) :
    sizeMatchesConfig (configure wid inner fmt)
    ∧ sizeMatchesConfig (st.step cf ev env).1 :=
  ⟨⟨rfl, rfl⟩, step_sizeMatchesConfig st cf ev env h⟩

/-- Witness for C9 at a concrete state and event. -/
theorem size_tracks_config_witness :
    sizeMatchesConfig (configure 1 (640, 480) 2)
    ∧ (sizeMatchesConfig (configure 0 (800, 600) 0)
       ∧ sizeMatchesConfig ((configure 1 (640, 480) 2).step .Poll
           .MainEventsCleared ⟨0, 0, 0, none⟩).1) :=
  ⟨by decide,
    size_tracks_config 0 (800, 600) 0 (configure 1 (640, 480) 2) .Poll
      .MainEventsCleared ⟨0, 0, 0, none⟩ (by decide)⟩

/-- Claim C10: the background color at construction is exactly
(0.1, 0.2, 0.3, 1.0), and any step that is not a left-mouse-button
press leaves the background color unchanged. -/
theorem background_initial_and_only_left_click_changes
    (wid : Nat) (inner : Nat × Nat) (fmt : Nat)
    (st : Window) (cf : ControlFlow) (ev : Event) (env : EnvInput)
    (h : isLeftClick ev = false) :
    (configure wid inner fmt).background_color =
      { r := 0.1, g := 0.2, b := 0.3, a := 1.0 }
    ∧ (st.step cf ev env).1.background_color = st.background_color :=
  ⟨rfl, step_background st cf ev env h⟩

/-- Witness for C10 at a concrete state and a non-click event. -/
theorem background_initial_witness :
    isLeftClick Event.MainEventsCleared = false
    ∧ ((configure 0 (800, 600) 0).background_color =
        { r := 0.1, g := 0.2, b := 0.3, a := 1.0 }
       ∧ ((configure 0 (800, 600) 0).step .Poll .MainEventsCleared
            ⟨0, 0, 0, none⟩).1.background_color =
          (configure 0 (800, 600) 0).background_color) :=
  ⟨rfl,
    background_initial_and_only_left_click_changes 0 (800, 600) 0
      (configure 0 (800, 600) 0) .Poll .MainEventsCleared ⟨0, 0, 0, none⟩ rfl⟩

end WgpuFun
